import Mathlib

/-!
Verification of the order pricing, invoicing and order-lifecycle core of the
Palace Cafe ordering backend.

The JavaScript source is shallowly embedded:

* JS numbers that hold money amounts are modelled as exact rationals (`ℚ`);
  `Math.round` is `jsRound` (round half toward positive infinity).
* Database rows (menu items, orders, invoices, the key/value settings table)
  are Lean structures and association lists; Prisma reads/writes become pure
  state passing.
* Fallible handlers return `Except`.

Definitions follow `src/utils/invoice-generator.js` and the route handlers in
`src/server.js` (order placement, admin lifecycle endpoints, invoice resend).
Presentation-only data (translated display names, the human-readable
customization text, PDF layout) is not modelled: no theorem below depends
on it.
-/

/- ============================================================
   Money / VAT module  (src/utils/invoice-generator.js)
   ============================================================ -/

/-- JS `Math.round`: round to the nearest integer, halves toward +∞. -/
def jsRound (x : ℚ) : ℤ := (x + 1/2).floor

/-- `Math.round(x * 100) / 100`: round to two decimal places. -/
def round2 (x : ℚ) : ℚ := (jsRound (x * 100) : ℚ) / 100

/-- Modelled from the spec wording: round to the nearest cent with ties away
from zero.  Used only to compare the code's rounding against the spec's
description of it. -/
def round2AwayFromZero (x : ℚ) : ℚ :=
  if 0 ≤ x then ((⌊x * 100 + 1/2⌋ : ℤ) : ℚ) / 100
  else ((⌈x * 100 - 1/2⌉ : ℤ) : ℚ) / 100

/-- The fixed Slovak VAT rate used by `calculateVATBreakdown` (19%). -/
def vatRate : ℚ := 19/100

/-- Result record of `calculateVATBreakdown`. -/
structure VATBreakdown where
  netAmount : ℚ
  vatAmount : ℚ
  grossAmount : ℚ

/-- `calculateVATBreakdown` from `src/utils/invoice-generator.js` lines
130-140: `vatAmount = Math.round(grossAmount * vatRate * 100) / 100`,
`netAmount = Math.round((grossAmount - vatAmount) * 100) / 100`, and the
output `grossAmount` is `Math.round(grossAmount * 100) / 100`. -/
def calculateVATBreakdown (grossAmount : ℚ) : VATBreakdown :=
  let vatAmount : ℚ := round2 (grossAmount * vatRate)
  let netAmount : ℚ := round2 (grossAmount - vatAmount)
  { netAmount := netAmount
    vatAmount := vatAmount
    grossAmount := round2 grossAmount }

/- ============================================================
   Invoice numbering  (src/utils/invoice-generator.js lines 90-124)
   ============================================================ -/

/-- `String.padStart(4, '0')` on a decimal numeral. -/
def padStart4 (s : String) : String :=
  if s.length < 4 then String.mk (List.replicate (4 - s.length) '0') ++ s else s

/-- `generateInvoiceNumber(paymentMethod, year, counter)`: "1250" for CASH and
"2250" otherwise, followed by the counter zero-padded to 4 digits.  The `year`
argument is accepted and ignored, exactly as in the source. -/
def generateInvoiceNumber (paymentMethod : String) (_year : ℕ) (counter : ℕ) : String :=
  (if paymentMethod = "CASH" then "1250" else "2250") ++ padStart4 (toString counter)

/-- The settings table rows relevant to invoice counters: key/value pairs.
The database stores the decimal string of the counter (written with
`toString`, read back with `parseInt`), which round-trips; we keep the
number itself. -/
abbrev SettingStore : Type := List (String × ℕ)

/-- `prisma.setting.findUnique({ where: { key } })`. -/
def settingLookup (store : SettingStore) (key : String) : Option ℕ :=
  (List.find? (fun p => p.1 == key) store).map (fun p => p.2)

/-- `prisma.setting.update({ where: { key }, data: { value } })`. -/
def settingUpdate (store : SettingStore) (key : String) (v : ℕ) : SettingStore :=
  List.map (fun p => if p.1 == key then (p.1, v) else p) store

/-- `prisma.setting.create({ data: { key, value, type: 'number' } })`. -/
def settingCreate (store : SettingStore) (key : String) (v : ℕ) : SettingStore :=
  store ++ [(key, v)]

/-- The counter key `invoice_counter_${paymentMethod.toLowerCase()}_${year}`. -/
def counterKey (paymentMethod : String) (year : ℕ) : String :=
  "invoice_counter_" ++ paymentMethod.toLower ++ "_" ++ toString year

/-- The first await of `getNextInvoiceCounter`: read the current counter row. -/
def getNextInvoiceCounterRead (store : SettingStore) (key : String) : Option ℕ :=
  settingLookup store key

/-- The rest of `getNextInvoiceCounter`, applied to whatever the earlier read
returned: if a row was seen, write `seen + 1` and return it; otherwise create
the row with value 1 and return 1.  Kept separate from the read because the
source performs them as two independent awaits with no transaction around
them. -/
def getNextInvoiceCounterApply (store : SettingStore) (key : String)
    (seen : Option ℕ) : ℕ × SettingStore :=
  match seen with
  | some v => (v + 1, settingUpdate store key (v + 1))
  | none => (1, settingCreate store key 1)

/-- `getNextInvoiceCounter(paymentMethod, year, prisma)` run in isolation
(no interleaving): read then apply. -/
def getNextInvoiceCounter (paymentMethod : String) (year : ℕ)
    (store : SettingStore) : ℕ × SettingStore :=
  getNextInvoiceCounterApply store (counterKey paymentMethod year)
    (getNextInvoiceCounterRead store (counterKey paymentMethod year))

/-- Two concurrent executions of `getNextInvoiceCounter` on the same key,
interleaved as read-A, read-B, write-A, write-B — an interleaving the source
does nothing to exclude, since the read and the write are separate awaits
with no transaction or lock.  Returns (counter handed to A, counter handed
to B, final store). -/
def getNextInvoiceCounterRace (paymentMethod : String) (year : ℕ)
    (store : SettingStore) : ℕ × ℕ × SettingStore :=
  let key := counterKey paymentMethod year
  let seenA := getNextInvoiceCounterRead store key
  let seenB := getNextInvoiceCounterRead store key
  let resA := getNextInvoiceCounterApply store key seenA
  let resB := getNextInvoiceCounterApply resA.2 key seenB
  (resA.1, resB.1, resB.2)

/- ============================================================
   Catalog and pricing engine  (src/server.js, POST /api/orders,
   lines 330-500; identical pricing loop in the Stripe
   confirm-payment handler around line 990)
   ============================================================ -/

/-- A `MenuItem` row, restricted to the fields the pricing engine reads. -/
structure MenuItem where
  id : ℕ
  slug : String
  price : ℚ
  includesSides : Bool

/-- A `FriesOption` row: slug plus price addon. -/
structure FriesOption where
  slug : String
  priceAddon : ℚ

/-- The catalog the handlers read through Prisma. -/
structure Catalog where
  menuItems : List MenuItem
  friesOptions : List FriesOption

/-- `prisma.menuItem.findUnique({ where: { id } })`. -/
def findMenuItem (c : Catalog) (id : ℕ) : Option MenuItem :=
  List.find? (fun m => m.id == id) c.menuItems

/-- `prisma.friesOption.findFirst({ where: { slug } })`. -/
def findFriesOption (c : Catalog) (slug : String) : Option FriesOption :=
  List.find? (fun o => o.slug == slug) c.friesOptions

/-- One element of the request body's `items` array. -/
structure OrderLineRequest where
  menuItemId : ℕ
  quantity : ℕ
  selectedSauce : Option String
  friesUpgrade : Option String
  extras : List String
  removeItems : List String
  specialNotes : Option String

/-- The `OrderItem` row the handler persists for one request line. -/
structure OrderItemRec where
  menuItemId : ℕ
  quantity : ℕ
  unitPrice : ℚ
  totalPrice : ℚ
  selectedSauce : Option String
  friesUpgrade : Option String
  extras : List String
  removeItems : List String
  specialNotes : Option String

/-- The €0.30 charged per extra. -/
def extraUnitPrice : ℚ := 3/10

/-- `extrasCost = extrasCount * 0.30` for one request line. -/
def extrasCost (line : OrderLineRequest) : ℚ :=
  (line.extras.length : ℚ) * extraUnitPrice

/-- The per-unit fries surcharge of the order-placement loop: resolve the
`friesUpgrade` slug; an unresolved slug is silently ignored; with
`includesSides` the options whose slug is `regular` or `regular-fries` are
free, everything else costs `priceAddon`; without `includesSides` every
resolved option costs `priceAddon`. -/
def friesChargePerUnit (c : Catalog) (m : MenuItem) (friesUpgrade : Option String) : ℚ :=
  match friesUpgrade with
  | none => 0
  | some slug =>
    match findFriesOption c slug with
    | none => 0
    | some opt =>
      if m.includesSides then
        if opt.slug ≠ "regular" ∧ opt.slug ≠ "regular-fries" then opt.priceAddon else 0
      else opt.priceAddon

/-- Errors with which order placement can abort (HTTP 400 responses of the
handler). -/
inductive PlaceOrderError where
  | missingFields
  | missingAddress
  | menuItemNotFound (id : ℕ)
deriving DecidableEq

/-- The body of the pricing loop for one request line: resolve the menu item
(failing aborts the whole order), then
`itemTotal = price * quantity + fries surcharge + extras surcharge`, and
emit the `OrderItem` row that is persisted. -/
def priceLine (c : Catalog) (line : OrderLineRequest) :
    Except PlaceOrderError OrderItemRec :=
  match findMenuItem c line.menuItemId with
  | none => .error (.menuItemNotFound line.menuItemId)
  | some menuItem =>
    let base : ℚ := menuItem.price * (line.quantity : ℚ)
    let withFries : ℚ :=
      base + friesChargePerUnit c menuItem line.friesUpgrade * (line.quantity : ℚ)
    let itemTotal : ℚ :=
      if line.extras.length > 0 then withFries + extrasCost line * (line.quantity : ℚ)
      else withFries
    .ok { menuItemId := line.menuItemId
          quantity := line.quantity
          unitPrice := menuItem.price
          totalPrice := itemTotal
          selectedSauce := line.selectedSauce
          friesUpgrade := line.friesUpgrade
          extras := line.extras
          removeItems := line.removeItems
          specialNotes := line.specialNotes }

/-- The pricing loop: price each line in order, aborting on the first line
whose menu item does not resolve, and accumulate the subtotal. -/
def priceOrder (c : Catalog) :
    List OrderLineRequest → Except PlaceOrderError (List OrderItemRec × ℚ)
  | [] => .ok ([], 0)
  | line :: rest =>
    match priceLine c line with
    | .error e => .error e
    | .ok item =>
      match priceOrder c rest with
      | .error e => .error e
      | .ok (items, subtotal) => .ok (item :: items, item.totalPrice + subtotal)

/- ============================================================
   Delivery fee, order and invoice records
   ============================================================ -/

/-- The restaurant settings row, restricted to the configured delivery fee. -/
structure Restaurant where
  deliveryFee : ℚ

/-- `(orderType === 'DELIVERY') ? restaurant?.deliveryFee || 2.50 : 0`
(lines 366-368 of `src/server.js` and again in the Stripe confirm-payment
handler): for delivery orders a missing restaurant row or a falsy (zero)
configured fee both fall back to 2.50; otherwise the fee is 0. -/
def resolveDeliveryFee (orderType : String) (restaurant : Option Restaurant) : ℚ :=
  if orderType = "DELIVERY" then
    match restaurant with
    | none => 5/2
    | some r => if r.deliveryFee = 0 then 5/2 else r.deliveryFee
  else 0

/-- An `Order` row.  `acceptedAt` and `preparingAt` are carried because the
admin handlers write fields of those names (the initial migration only
declares `confirmedAt`, `readyAt` and `deliveredAt` timestamp columns). -/
structure OrderRec where
  orderNumber : String
  status : String
  orderType : String
  paymentMethod : String
  customerName : String
  customerPhone : String
  customerEmail : Option String
  deliveryAddress : Option String
  subtotal : ℚ
  deliveryFee : ℚ
  total : ℚ
  estimatedTime : Option ℚ
  confirmedAt : Option ℤ
  acceptedAt : Option ℤ
  preparingAt : Option ℤ
  readyAt : Option ℤ
  deliveredAt : Option ℤ
  items : List OrderItemRec

/-- One entry of the `orderItems` JSON snapshot stored on the invoice
(slug and the priced fields; the translated display name and the
human-readable customization text are presentation-only and not modelled). -/
structure InvoiceItem where
  slug : String
  quantity : ℕ
  unitPrice : ℚ
  totalPrice : ℚ

/-- An `Invoice` row. -/
structure InvoiceRec where
  invoiceNumber : String
  orderNumber : String
  customerName : String
  customerEmail : Option String
  customerPhone : String
  subtotal : ℚ
  deliveryFee : ℚ
  totalNet : ℚ
  vatAmount : ℚ
  totalGross : ℚ
  paymentMethod : String
  orderItems : List InvoiceItem
  emailSent : Bool
  emailSentAt : Option ℤ
  emailAttempts : ℕ

/-- Build the invoice snapshot entry for a persisted order line (the slug is
looked up from the catalog exactly as the handler reads `menuItem.slug`). -/
def invoiceItemOf (c : Catalog) (item : OrderItemRec) : InvoiceItem :=
  { slug := ((findMenuItem c item.menuItemId).map MenuItem.slug).getD ""
    quantity := item.quantity
    unitPrice := item.unitPrice
    totalPrice := item.totalPrice }

/- ============================================================
   Order placement  (src/server.js, POST /api/orders)
   ============================================================ -/

/-- The persistent state the order-placement handler touches. -/
structure ServerState where
  restaurant : Option Restaurant
  catalog : Catalog
  settings : SettingStore
  orders : List OrderRec
  invoices : List InvoiceRec

/-- The request body of `POST /api/orders`, restricted to the fields the
handler reads.  Absent (falsy) strings are modelled as `""`/`none`. -/
structure PlaceOrderRequest where
  customerName : String
  customerPhone : String
  customerEmail : Option String
  orderType : String
  deliveryAddress : Option String
  items : List OrderLineRequest
  paymentMethod : Option String

/-- Outcome of one invoice-email send attempt: the service resolved with
`success: true`, resolved with `success: false`, or threw. -/
inductive EmailOutcome where
  | success
  | failed
  | threw
deriving DecidableEq

/-- `paymentMethod || 'CASH'`: absent or empty falls back to CASH. -/
def paymentMethodOrCash (pm : Option String) : String :=
  match pm with
  | none => "CASH"
  | some s => if s = "" then "CASH" else s

/-- The `POST /api/orders` handler: validation, delivery-fee resolution,
the pricing loop, order persistence, then synchronous invoice issuance
(counter increment, invoice number, VAT breakdown, invoice row) and the
invoice-email bookkeeping.  `orderNumber` stands for the generated
`PCB-...` number, `now` for the request time in milliseconds, and
`emailOutcome` for how the email service behaved (only consulted when the
request carries a customer email).  Every failing path returns the state
unchanged; the websocket broadcast and the PDF bytes are effect-free in
this model. -/
def placeOrder (st : ServerState) (req : PlaceOrderRequest) (orderNumber : String)
    (year : ℕ) (now : ℤ) (emailOutcome : EmailOutcome) :
    ServerState × Except PlaceOrderError OrderRec :=
  if req.customerName = "" ∨ req.customerPhone = "" ∨ req.items.length = 0 then
    (st, .error .missingFields)
  else if req.orderType = "DELIVERY" ∧ req.deliveryAddress = none then
    (st, .error .missingAddress)
  else
    let deliveryFee := resolveDeliveryFee req.orderType st.restaurant
    match priceOrder st.catalog req.items with
    | .error e => (st, .error e)
    | .ok priced =>
      let subtotal := priced.2
      let total := subtotal + deliveryFee
      let pm := paymentMethodOrCash req.paymentMethod
      let order : OrderRec :=
        { orderNumber := orderNumber
          status := "PENDING"
          orderType := req.orderType
          paymentMethod := pm
          customerName := req.customerName
          customerPhone := req.customerPhone
          customerEmail := req.customerEmail
          deliveryAddress := if req.orderType = "DELIVERY" then req.deliveryAddress else none
          subtotal := subtotal
          deliveryFee := deliveryFee
          total := total
          estimatedTime := some ((now : ℚ) + 45 * 60 * 1000)
          confirmedAt := none
          acceptedAt := none
          preparingAt := none
          readyAt := none
          deliveredAt := none
          items := priced.1 }
      let counterRes := getNextInvoiceCounter pm year st.settings
      let invoice : InvoiceRec :=
        { invoiceNumber := generateInvoiceNumber pm year counterRes.1
          orderNumber := orderNumber
          customerName := req.customerName
          customerEmail := req.customerEmail
          customerPhone := req.customerPhone
          subtotal := subtotal
          deliveryFee := deliveryFee
          totalNet := (calculateVATBreakdown total).netAmount
          vatAmount := (calculateVATBreakdown total).vatAmount
          totalGross := (calculateVATBreakdown total).grossAmount
          paymentMethod := pm
          orderItems := priced.1.map (invoiceItemOf st.catalog)
          emailSent := false
          emailSentAt := none
          emailAttempts := 0 }
      let invoiceAfterEmail : InvoiceRec :=
        match req.customerEmail, emailOutcome with
        | some _, .success =>
          { invoice with emailSent := true, emailSentAt := some now, emailAttempts := 1 }
        | some _, .failed => invoice
        | some _, .threw => { invoice with emailAttempts := 1 }
        | none, _ => invoice
      ({ st with settings := counterRes.2
                 orders := st.orders ++ [order]
                 invoices := st.invoices ++ [invoiceAfterEmail] },
       .ok order)

/- ============================================================
   Admin order lifecycle  (src/server.js, admin endpoints)
   ============================================================ -/

/-- Errors of the admin lifecycle endpoints. -/
inductive LifecycleError where
  | invalidEstimate
  | invalidStatus
deriving DecidableEq

/-- `PUT /api/admin/orders/:id/accept` (lines 1987-2025): rejects when
`!estimatedMinutes || estimatedMinutes < 1`; otherwise sets status
CONFIRMED, writes `acceptedAt = now` and
`estimatedTime = now + estimatedMinutes * 60000`. -/
def acceptOrder (order : OrderRec) (estimatedMinutes : Option ℚ) (now : ℤ) :
    Except LifecycleError OrderRec :=
  match estimatedMinutes with
  | none => .error .invalidEstimate
  | some m =>
    if m = 0 ∨ m < 1 then .error .invalidEstimate
    else
      .ok { order with
              status := "CONFIRMED"
              acceptedAt := some now
              estimatedTime := some ((now : ℚ) + m * 60000) }

/-- The status strings `PATCH /api/admin/orders/:id/status` accepts
(line 1842). -/
def validStatuses : List String :=
  ["PENDING", "CONFIRMED", "PREPARING", "READY", "DELIVERED", "CANCELLED"]

/-- `PATCH /api/admin/orders/:id/status` (lines 1838-1869): reject unknown
status strings; otherwise set the status unconditionally, optionally
overwrite `estimatedTime`, and stamp the transition timestamp matching the
new status.  The current status is never consulted. -/
def updateOrderStatus (order : OrderRec) (status : String)
    (estimatedTime : Option ℚ) (now : ℤ) : Except LifecycleError OrderRec :=
  if status ∈ validStatuses then
    let o1 := { order with
                  status := status
                  estimatedTime :=
                    match estimatedTime with
                    | some t => some t
                    | none => order.estimatedTime }
    .ok (if status = "CONFIRMED" then { o1 with confirmedAt := some now }
         else if status = "PREPARING" then { o1 with preparingAt := some now }
         else if status = "READY" then { o1 with readyAt := some now }
         else if status = "DELIVERED" then { o1 with deliveredAt := some now }
         else o1)
  else .error .invalidStatus

/-- `PUT /api/admin/orders/:id/cancel` (lines 1955-1979): unconditionally
sets status CANCELLED. -/
def cancelOrder (order : OrderRec) : OrderRec :=
  { order with status := "CANCELLED" }

/-- `PUT /api/admin/orders/:id/ready`: unconditionally sets status READY and
stamps `readyAt`. -/
def markOrderReady (order : OrderRec) (now : ℤ) : OrderRec :=
  { order with status := "READY", readyAt := some now }

/-- `PUT /api/admin/orders/:id/delivery`: unconditionally sets status
OUT_FOR_DELIVERY. -/
def markOrderOutForDelivery (order : OrderRec) : OrderRec :=
  { order with status := "OUT_FOR_DELIVERY" }

/-- `PUT /api/admin/orders/:id/complete`: unconditionally sets status
DELIVERED and stamps `deliveredAt`. -/
def completeOrder (order : OrderRec) (now : ℤ) : OrderRec :=
  { order with status := "DELIVERED", deliveredAt := some now }

/- ============================================================
   Invoice email resend  (src/server.js, POST
   /api/admin/invoices/:id/resend-email, lines 3672-3747)
   ============================================================ -/

/-- One invocation of the resend-email handler on the looked-up invoice
(`none` when the id matched no row).  `emailOverride` is the optional
`email` body field (`email || invoice.customerEmail`).  On a successful
send the handler sets `emailSent`, `emailSentAt` and bumps
`emailAttempts`; on a reported failure it only bumps `emailAttempts`; when
the send throws, the catch block updates nothing.  The settings store is
passed through untouched: the handler never reads or writes the invoice
counter. -/
def resendInvoiceEmail (invoice : Option InvoiceRec) (settings : SettingStore)
    (emailOverride : Option String) (outcome : EmailOutcome) (now : ℤ) :
    Option InvoiceRec × SettingStore :=
  match invoice with
  | none => (none, settings)
  | some inv =>
    let targetEmail : Option String :=
      match emailOverride with
      | some e => some e
      | none => inv.customerEmail
    match targetEmail with
    | none => (some inv, settings)
    | some _ =>
      match outcome with
      | .success =>
        (some { inv with
                  emailSent := true
                  emailSentAt := some now
                  emailAttempts := inv.emailAttempts + 1 }, settings)
      | .failed => (some { inv with emailAttempts := inv.emailAttempts + 1 }, settings)
      | .threw => (some inv, settings)

/-- Any finite sequence of resend invocations, each with its own email
override, send outcome and timestamp. -/
def resendCalls (start : Option InvoiceRec × SettingStore) :
    List (Option String × EmailOutcome × ℤ) → Option InvoiceRec × SettingStore
  | [] => start
  | (ov, oc, t) :: rest => resendCalls (resendInvoiceEmail start.1 start.2 ov oc t) rest

/-- The invoice fields the resend endpoint must never touch: the invoice
number, the customer snapshot, every monetary field, the payment method and
the stored line items. -/
def invoiceCore (i : InvoiceRec) :
    String × String × String × Option String × String × ℚ × ℚ × ℚ × ℚ × ℚ ×
      String × List InvoiceItem :=
  (i.invoiceNumber, i.orderNumber, i.customerName, i.customerEmail,
   i.customerPhone, i.subtotal, i.deliveryFee, i.totalNet, i.vatAmount,
   i.totalGross, i.paymentMethod, i.orderItems)

/- ============================================================
   Concrete fixtures (used by witnesses and counterexamples)
   ============================================================ -/

/-- An all-empty order record, used only as the `getD` fallback when
extracting a concretely placed order from an `Except`. -/
def emptyOrder : OrderRec :=
  { orderNumber := ""
    status := ""
    orderType := ""
    paymentMethod := ""
    customerName := ""
    customerPhone := ""
    customerEmail := none
    deliveryAddress := none
    subtotal := 0
    deliveryFee := 0
    total := 0
    estimatedTime := none
    confirmedAt := none
    acceptedAt := none
    preparingAt := none
    readyAt := none
    deliveredAt := none
    items := [] }

/-- Fixture menu item: a burger with bundled sides. -/
def wBurger : MenuItem :=
  { id := 1, slug := "palace-burger", price := 89/10, includesSides := true }

/-- Fixture menu item: a drink without bundled sides. -/
def wFanta : MenuItem :=
  { id := 2, slug := "fanta", price := 2, includesSides := false }

/-- Fixture fries option with a positive addon. -/
def wSweetPotato : FriesOption :=
  { slug := "sweet-potato-fries", priceAddon := 13/10 }

/-- Fixture regular-fries option. -/
def wRegularFries : FriesOption :=
  { slug := "regular-fries", priceAddon := 0 }

/-- Fixture catalog. -/
def wCatalog : Catalog :=
  { menuItems := [wBurger, wFanta]
    friesOptions := [wSweetPotato, wRegularFries] }

/-- Fixture request line: two burgers with a sweet-potato upgrade. -/
def wLine : OrderLineRequest :=
  { menuItemId := 1
    quantity := 2
    selectedSauce := none
    friesUpgrade := some "sweet-potato-fries"
    extras := []
    removeItems := []
    specialNotes := none }

/-- Fixture request line referencing a menu item id that is not in the
catalog. -/
def wBadLine : OrderLineRequest :=
  { menuItemId := 99
    quantity := 1
    selectedSauce := none
    friesUpgrade := none
    extras := []
    removeItems := []
    specialNotes := none }

/-- Fixture server state. -/
def wState : ServerState :=
  { restaurant := none
    catalog := wCatalog
    settings := []
    orders := []
    invoices := [] }

/-- Fixture pickup order request. -/
def wReq : PlaceOrderRequest :=
  { customerName := "Anna"
    customerPhone := "0900123456"
    customerEmail := none
    orderType := "PICKUP"
    deliveryAddress := none
    items := [wLine]
    paymentMethod := some "CASH" }

/-- Fixture delivery order request. -/
def wReqDelivery : PlaceOrderRequest :=
  { wReq with
      orderType := "DELIVERY"
      deliveryAddress := some "Hradna 2, Komarno"
      paymentMethod := some "CARD" }

/-- Fixture request whose only line references an unknown menu item. -/
def wReqBad : PlaceOrderRequest :=
  { wReq with items := [wBadLine] }

/-- The order produced by placing `wReq` against `wState`. -/
def wPlacedOrder : OrderRec :=
  ((placeOrder wState wReq "PCB-20250101-120000-001" 2025 0 EmailOutcome.success).2).toOption.getD
    emptyOrder

/-- The order produced by placing `wReqDelivery` against `wState`. -/
def wPlacedDelivery : OrderRec :=
  ((placeOrder wState wReqDelivery "PCB-20250101-120000-002" 2025 0 EmailOutcome.success).2).toOption.getD
    emptyOrder

/-- Fixture order sitting in PENDING. -/
def sampleOrder : OrderRec :=
  { emptyOrder with
      orderNumber := "PCB-20250101-120000-001"
      status := "PENDING"
      orderType := "PICKUP"
      paymentMethod := "CASH"
      customerName := "Anna"
      customerPhone := "0900123456" }

/-- Fixture order already in the terminal DELIVERED state. -/
def deliveredOrder : OrderRec :=
  { sampleOrder with status := "DELIVERED" }

/- ============================================================
   Theorems — shared helper lemmas
   ============================================================ -/

theorem jsRound_eq_floor (x : ℚ) : jsRound x = ⌊x + 1/2⌋ := by
  rw [jsRound, Rat.floor_def', Rat.floor_def]

theorem round2_eq_of (x : ℚ) (n : ℤ) (h1 : (n : ℚ) ≤ x * 100 + 1/2)
    (h2 : x * 100 + 1/2 < (n : ℚ) + 1) : round2 x = (n : ℚ) / 100 := by
  rw [round2, jsRound_eq_floor]
  congr 1
  norm_cast
  rw [Int.floor_eq_iff]
  constructor
  · exact_mod_cast h1
  · exact_mod_cast h2

theorem calculateVATBreakdown_vatAmount (g : ℚ) :
    (calculateVATBreakdown g).vatAmount = round2 (g * vatRate) := rfl

theorem calculateVATBreakdown_netAmount (g : ℚ) :
    (calculateVATBreakdown g).netAmount = round2 (g - round2 (g * vatRate)) := rfl

theorem calculateVATBreakdown_grossAmount (g : ℚ) :
    (calculateVATBreakdown g).grossAmount = round2 g := rfl

theorem round2AwayFromZero_of_nonneg (x : ℚ) (hx : 0 ≤ x) :
    round2AwayFromZero x = round2 x := by
  rw [round2AwayFromZero, if_pos hx, round2, jsRound_eq_floor]

/-- The computed VAT never exceeds a non-negative gross amount, so the
`grossAmount - vatAmount` fed into the second rounding is non-negative. -/
theorem round2_vat_le (g : ℚ) (hg : 0 ≤ g) : round2 (g * vatRate) ≤ g := by
  rw [round2, jsRound_eq_floor, vatRate]
  have harg : g * (19/100) * 100 + 1/2 = 19 * g + 1/2 := by ring
  rw [harg, div_le_iff₀ (by norm_num : (0:ℚ) < 100)]
  rcases le_or_lt (1/162 : ℚ) g with hbig | hsmall
  · have h1 : ((⌊19 * g + 1/2⌋ : ℤ) : ℚ) ≤ 19 * g + 1/2 := Int.floor_le _
    linarith
  · have hz : ⌊19 * g + 1/2⌋ = 0 := by
      rw [Int.floor_eq_zero_iff, Set.mem_Ico]
      exact ⟨by linarith, by linarith⟩
    rw [hz]
    push_cast
    linarith

/- ============================================================
   C1 and C2 — the VAT breakdown
   ============================================================ -/

/-- C1: for every (non-negative) gross amount `g`, the VAT breakdown returns
`vatAmount = round2(g * 0.19)`, `netAmount = round2(g - vatAmount)` and
`grossAmount = round2(g)`, where `round2` rounds to the nearest cent with
ties away from zero (which on the non-negative inputs that occur here is
exactly the `Math.round(x*100)/100` the code performs); and the net is not
computed as `g / 1.19` — at `g = 100` the code returns net 81 while the
divide-by-1.19 convention would give 84.03. -/
theorem C1_vat_breakdown_formula (g : ℚ) (hg : 0 ≤ g) :
    (calculateVATBreakdown g).vatAmount = round2AwayFromZero (g * vatRate) ∧
    (calculateVATBreakdown g).netAmount
      = round2AwayFromZero (g - (calculateVATBreakdown g).vatAmount) ∧
    (calculateVATBreakdown g).grossAmount = round2AwayFromZero g ∧
    (calculateVATBreakdown 100).netAmount ≠ round2 (100 / (119/100)) ∧
    (calculateVATBreakdown 100).netAmount ≠ 100 / (119/100) := by
  have hvat100 : round2 ((100:ℚ) * vatRate) = 19 := by
    have h := round2_eq_of ((100:ℚ) * vatRate) 1900 (by norm_num [vatRate])
      (by norm_num [vatRate])
    push_cast at h
    rw [h]
    norm_num
  have hnet100 : (calculateVATBreakdown 100).netAmount = 81 := by
    rw [calculateVATBreakdown_netAmount, hvat100]
    have h := round2_eq_of ((100:ℚ) - 19) 8100 (by norm_num) (by norm_num)
    push_cast at h
    rw [h]
    norm_num
  refine ⟨?_, ?_, ?_, ?_, ?_⟩
  · rw [calculateVATBreakdown_vatAmount,
      round2AwayFromZero_of_nonneg _ (mul_nonneg hg (by norm_num [vatRate]))]
  · rw [calculateVATBreakdown_netAmount, calculateVATBreakdown_vatAmount,
      round2AwayFromZero_of_nonneg _ (sub_nonneg.mpr (round2_vat_le g hg))]
  · rw [calculateVATBreakdown_grossAmount, round2AwayFromZero_of_nonneg _ hg]
  · have hdiv : round2 ((100:ℚ) / (119/100)) = 8403/100 := by
      have h := round2_eq_of ((100:ℚ) / (119/100)) 8403 (by norm_num) (by norm_num)
      push_cast at h
      exact h
    rw [hnet100, hdiv]
    norm_num
  · rw [hnet100]
    norm_num

/-- Witness for C1 at the gross amount 15.50 (the spec's own example). -/
theorem C1_vat_breakdown_formula_witness :
    (0 : ℚ) ≤ 1550/100 ∧
    ((calculateVATBreakdown (1550/100)).vatAmount
        = round2AwayFromZero ((1550/100) * vatRate) ∧
      (calculateVATBreakdown (1550/100)).netAmount
        = round2AwayFromZero ((1550/100) - (calculateVATBreakdown (1550/100)).vatAmount) ∧
      (calculateVATBreakdown (1550/100)).grossAmount
        = round2AwayFromZero (1550/100) ∧
      (calculateVATBreakdown 100).netAmount ≠ round2 (100 / (119/100)) ∧
      (calculateVATBreakdown 100).netAmount ≠ 100 / (119/100)) :=
  ⟨by norm_num, C1_vat_breakdown_formula (1550/100) (by norm_num)⟩

/-- C2: for every gross amount `g` (in particular every non-negative one,
whether or not it is a whole number of cents), the post-rounding output
fields satisfy `netAmount + vatAmount = grossAmount`. -/
theorem C2_vat_round_trip (g : ℚ) :
    (calculateVATBreakdown g).netAmount + (calculateVATBreakdown g).vatAmount
      = (calculateVATBreakdown g).grossAmount := by
  rw [calculateVATBreakdown_netAmount, calculateVATBreakdown_vatAmount,
    calculateVATBreakdown_grossAmount, vatRate]
  rw [round2, round2, round2, jsRound_eq_floor, jsRound_eq_floor, jsRound_eq_floor]
  have h19 : g * (19/100) * 100 + 1/2 = 19 * g + 1/2 := by ring
  rw [h19]
  have harg : (g - (⌊19 * g + 1/2⌋ : ℚ) / 100) * 100 + 1/2
      = (g * 100 + 1/2) - (⌊19 * g + 1/2⌋ : ℚ) := by ring
  rw [harg, Int.floor_sub_int]
  push_cast
  ring

/- ============================================================
   C3 — invoice counter: the read-increment-write is not atomic
   ============================================================ -/

/-- C3: the claim asserts the counter's read-increment-write is atomic, so
that concurrent placements get distinct consecutive invoice counters.  The
source's `getNextInvoiceCounter` performs `findUnique` and `update` as two
separate awaits with no transaction, so the interleaving read-A, read-B,
write-A, write-B of two concurrent invocations on the key
`invoice_counter_cash_2025` (stored value 5) hands BOTH invocations the
counter 6 — a duplicated invoice number and a lost update (the final stored
value is 6, not 7).  A serialized pair of invocations on the same store
yields 6 then 7, which is what the claim requires of the concurrent pair. -/
theorem C3_counter_race_lost_update :
    getNextInvoiceCounterRace "CASH" 2025 [(counterKey "CASH" 2025, 5)]
      = (6, 6, [(counterKey "CASH" 2025, 6)]) ∧
    (getNextInvoiceCounter "CASH" 2025 [(counterKey "CASH" 2025, 5)]).1 = 6 ∧
    (getNextInvoiceCounter "CASH" 2025
      (getNextInvoiceCounter "CASH" 2025 [(counterKey "CASH" 2025, 5)]).2).1 = 7 := by
  refine ⟨?_, ?_, ?_⟩ <;>
    simp [getNextInvoiceCounterRace, getNextInvoiceCounter,
      getNextInvoiceCounterRead, getNextInvoiceCounterApply, settingLookup,
      settingUpdate, settingCreate, List.find?]

/- ============================================================
   Pricing-loop helper lemmas
   ============================================================ -/

/-- What a successfully priced line looks like: the menu item resolved, the
unit price is its snapshot, and the line total is
`(unitPrice + fries surcharge + extras surcharge) * quantity`. -/
theorem priceLine_ok_spec (c : Catalog) (line : OrderLineRequest) (item : OrderItemRec)
    (h : priceLine c line = Except.ok item) :
    ∃ m, findMenuItem c item.menuItemId = some m ∧
      item.unitPrice = m.price ∧
      item.totalPrice = (item.unitPrice + friesChargePerUnit c m item.friesUpgrade
        + (item.extras.length : ℚ) * extraUnitPrice) * (item.quantity : ℚ) := by
  unfold priceLine at h
  cases hm : findMenuItem c line.menuItemId with
  | none => rw [hm] at h; cases h
  | some m =>
    rw [hm] at h
    have hrec := Except.ok.inj h
    subst hrec
    refine ⟨m, hm, rfl, ?_⟩
    dsimp only
    by_cases hx : line.extras.length > 0
    · rw [if_pos hx, extrasCost]
      ring
    · rw [if_neg hx]
      have hzero : line.extras.length = 0 := by omega
      rw [hzero]
      push_cast
      ring

/-- Induction over the pricing loop: on success every emitted row satisfies
the per-line pricing contract, and the accumulated subtotal is the sum of
the rows' totals. -/
theorem priceOrder_ok_spec (c : Catalog) (lines : List OrderLineRequest) :
    ∀ items subtotal, priceOrder c lines = Except.ok (items, subtotal) →
      (∀ item ∈ items, ∃ m, findMenuItem c item.menuItemId = some m ∧
        item.unitPrice = m.price ∧
        item.totalPrice = (item.unitPrice + friesChargePerUnit c m item.friesUpgrade
          + (item.extras.length : ℚ) * extraUnitPrice) * (item.quantity : ℚ)) ∧
      subtotal = (items.map OrderItemRec.totalPrice).sum := by
  induction lines with
  | nil =>
    intro items subtotal h
    rw [priceOrder] at h
    have hp := Except.ok.inj h
    rw [Prod.ext_iff] at hp
    obtain ⟨h1, h2⟩ := hp
    subst h1
    subst h2
    exact ⟨by simp, by simp⟩
  | cons line rest ih =>
    intro items subtotal h
    rw [priceOrder] at h
    cases hl : priceLine c line with
    | error e => rw [hl] at h; cases h
    | ok item =>
      rw [hl] at h
      cases hr : priceOrder c rest with
      | error e => rw [hr] at h; cases h
      | ok p =>
        obtain ⟨restItems, restSub⟩ := p
        rw [hr] at h
        have hp := Except.ok.inj h
        rw [Prod.ext_iff] at hp
        obtain ⟨h1, h2⟩ := hp
        subst h1
        subst h2
        obtain ⟨ihall, ihsum⟩ := ih restItems restSub hr
        constructor
        · intro it hit
          rcases List.mem_cons.mp hit with rfl | hmem
          · exact priceLine_ok_spec c line it hl
          · exact ihall it hmem
        · rw [List.map_cons, List.sum_cons, ihsum]

/-- If some request line references an unknown menu item, the pricing loop
fails with a not-found error for an (unresolvable) menu item id. -/
theorem priceOrder_err_of_missing (c : Catalog) (lines : List OrderLineRequest)
    (line : OrderLineRequest) (hmem : line ∈ lines)
    (hnone : findMenuItem c line.menuItemId = none) :
    ∃ i, priceOrder c lines = Except.error (PlaceOrderError.menuItemNotFound i) ∧
      findMenuItem c i = none := by
  induction lines with
  | nil => cases hmem
  | cons hd tl ih =>
    rcases List.mem_cons.mp hmem with rfl | hmem'
    · exact ⟨line.menuItemId, by simp [priceOrder, priceLine, hnone], hnone⟩
    · cases hl : priceLine c hd with
      | error e =>
        have herr : ∃ i, e = PlaceOrderError.menuItemNotFound i ∧
            findMenuItem c i = none := by
          unfold priceLine at hl
          cases hm : findMenuItem c hd.menuItemId with
          | none => rw [hm] at hl; exact ⟨hd.menuItemId, (Except.error.inj hl).symm, hm⟩
          | some m => rw [hm] at hl; cases hl
        obtain ⟨i, rfl, hi⟩ := herr
        exact ⟨i, by rw [priceOrder, hl], hi⟩
      | ok item =>
        obtain ⟨i, hpe, hi⟩ := ih hmem'
        exact ⟨i, by rw [priceOrder, hl, hpe], hi⟩

/-- Inversion of a successful order placement: the pricing loop succeeded and
the created order carries its rows, its subtotal, the resolved delivery fee
and `total = subtotal + deliveryFee`. -/
theorem placeOrder_ok_elim (st : ServerState) (req : PlaceOrderRequest)
    (orderNumber : String) (year : ℕ) (now : ℤ) (eo : EmailOutcome) (o : OrderRec)
    (h : (placeOrder st req orderNumber year now eo).2 = Except.ok o) :
    ∃ items subtotal,
      priceOrder st.catalog req.items = Except.ok (items, subtotal) ∧
      o.items = items ∧ o.subtotal = subtotal ∧
      o.deliveryFee = resolveDeliveryFee req.orderType st.restaurant ∧
      o.total = subtotal + resolveDeliveryFee req.orderType st.restaurant := by
  unfold placeOrder at h
  by_cases h1 : req.customerName = "" ∨ req.customerPhone = "" ∨ req.items.length = 0
  · rw [if_pos h1] at h; cases h
  · rw [if_neg h1] at h
    by_cases h2 : req.orderType = "DELIVERY" ∧ req.deliveryAddress = none
    · rw [if_pos h2] at h; cases h
    · rw [if_neg h2] at h
      cases hp : priceOrder st.catalog req.items with
      | error e => rw [hp] at h; cases h
      | ok p =>
        rw [hp] at h
        have hrec := Except.ok.inj h
        subst hrec
        exact ⟨p.1, p.2, by simp [hp], rfl, rfl, rfl, rfl⟩

/-- A successfully resolved line prices to
`price * qty + fries surcharge * qty + extras surcharge * qty`. -/
theorem priceLine_total_decomp (c : Catalog) (line : OrderLineRequest) (m : MenuItem)
    (hm : findMenuItem c line.menuItemId = some m) :
    ∃ item, priceLine c line = Except.ok item ∧
      item.totalPrice = m.price * (line.quantity : ℚ)
        + friesChargePerUnit c m line.friesUpgrade * (line.quantity : ℚ)
        + extrasCost line * (line.quantity : ℚ) := by
  unfold priceLine
  rw [hm]
  refine ⟨_, rfl, ?_⟩
  dsimp only
  by_cases hx : line.extras.length > 0
  · rw [if_pos hx]
  · rw [if_neg hx]
    have hzero : line.extras.length = 0 := by omega
    rw [extrasCost, hzero]
    push_cast
    ring

/- ============================================================
   C4 — the fries-upgrade pricing policy
   ============================================================ -/

/-- C4: for a line carrying a fries-upgrade slug (and a resolvable menu
item): if the slug resolves and the item bundles sides, the options with
slug `regular` or `regular-fries` add nothing while any other option adds
`priceAddon * quantity`; if the item does not bundle sides, every resolved
option (including the regular ones) adds `priceAddon * quantity`; and an
unresolvable slug is silently ignored — the line still prices, at zero
surcharge. -/
theorem C4_fries_upgrade_policy (c : Catalog) (line : OrderLineRequest)
    (m : MenuItem) (slug : String)
    (hm : findMenuItem c line.menuItemId = some m)
    (hs : line.friesUpgrade = some slug) :
    (∀ opt, findFriesOption c slug = some opt → m.includesSides = true →
      (opt.slug = "regular" ∨ opt.slug = "regular-fries") →
      ∃ item, priceLine c line = Except.ok item ∧
        item.totalPrice = m.price * (line.quantity : ℚ)
          + extrasCost line * (line.quantity : ℚ)) ∧
    (∀ opt, findFriesOption c slug = some opt → m.includesSides = true →
      opt.slug ≠ "regular" → opt.slug ≠ "regular-fries" →
      ∃ item, priceLine c line = Except.ok item ∧
        item.totalPrice = m.price * (line.quantity : ℚ)
          + opt.priceAddon * (line.quantity : ℚ)
          + extrasCost line * (line.quantity : ℚ)) ∧
    (∀ opt, findFriesOption c slug = some opt → m.includesSides = false →
      ∃ item, priceLine c line = Except.ok item ∧
        item.totalPrice = m.price * (line.quantity : ℚ)
          + opt.priceAddon * (line.quantity : ℚ)
          + extrasCost line * (line.quantity : ℚ)) ∧
    (findFriesOption c slug = none →
      ∃ item, priceLine c line = Except.ok item ∧
        item.totalPrice = m.price * (line.quantity : ℚ)
          + extrasCost line * (line.quantity : ℚ)) := by
  obtain ⟨item, hitem, htot⟩ := priceLine_total_decomp c line m hm
  refine ⟨?_, ?_, ?_, ?_⟩
  · intro opt hopt hside hor
    have hcharge : friesChargePerUnit c m line.friesUpgrade = 0 := by
      rcases hor with hr | hr <;> simp [friesChargePerUnit, hs, hopt, hside, hr]
    refine ⟨item, hitem, ?_⟩
    rw [htot, hcharge]
    ring
  · intro opt hopt hside hne1 hne2
    have hcharge : friesChargePerUnit c m line.friesUpgrade = opt.priceAddon := by
      simp [friesChargePerUnit, hs, hopt, hside, hne1, hne2]
    refine ⟨item, hitem, ?_⟩
    rw [htot, hcharge]
  · intro opt hopt hside
    have hcharge : friesChargePerUnit c m line.friesUpgrade = opt.priceAddon := by
      simp [friesChargePerUnit, hs, hopt, hside]
    refine ⟨item, hitem, ?_⟩
    rw [htot, hcharge]
  · intro hopt
    have hcharge : friesChargePerUnit c m line.friesUpgrade = 0 := by
      simp [friesChargePerUnit, hs, hopt]
    refine ⟨item, hitem, ?_⟩
    rw [htot, hcharge]
    ring

/-- Witness for C4: two bundled-sides burgers with a sweet-potato upgrade
are charged the full addon. -/
theorem C4_fries_upgrade_policy_witness :
    findMenuItem wCatalog wLine.menuItemId = some wBurger ∧
    wLine.friesUpgrade = some "sweet-potato-fries" ∧
    findFriesOption wCatalog "sweet-potato-fries" = some wSweetPotato ∧
    wBurger.includesSides = true ∧
    wSweetPotato.slug ≠ "regular" ∧ wSweetPotato.slug ≠ "regular-fries" ∧
    ∃ item, priceLine wCatalog wLine = Except.ok item ∧
      item.totalPrice = wBurger.price * (wLine.quantity : ℚ)
        + wSweetPotato.priceAddon * (wLine.quantity : ℚ)
        + extrasCost wLine * (wLine.quantity : ℚ) :=
  ⟨rfl, rfl, rfl, rfl, by decide, by decide,
    (C4_fries_upgrade_policy wCatalog wLine wBurger "sweet-potato-fries" rfl rfl).2.1
      wSweetPotato rfl rfl (by decide) (by decide)⟩

/- ============================================================
   C5 — per-line and order total invariants
   ============================================================ -/

/-- C5: for every successfully placed order, each persisted line satisfies
`totalPrice = (unitPrice + fries surcharge + 0.30 per extra) * quantity`
(with the surcharge determined by the fries policy), the order's subtotal
is the sum of its lines' totals, and `total = subtotal + deliveryFee`. -/
theorem C5_order_totals (st : ServerState) (req : PlaceOrderRequest)
    (orderNumber : String) (year : ℕ) (now : ℤ) (eo : EmailOutcome) (o : OrderRec)
    (h : (placeOrder st req orderNumber year now eo).2 = Except.ok o) :
    (∀ item ∈ o.items, ∃ m, findMenuItem st.catalog item.menuItemId = some m ∧
      item.unitPrice = m.price ∧
      item.totalPrice = (item.unitPrice + friesChargePerUnit st.catalog m item.friesUpgrade
        + (item.extras.length : ℚ) * extraUnitPrice) * (item.quantity : ℚ)) ∧
    o.subtotal = (o.items.map OrderItemRec.totalPrice).sum ∧
    o.total = o.subtotal + o.deliveryFee := by
  obtain ⟨items, subtotal, hp, hi, hsub, hfee, htot⟩ :=
    placeOrder_ok_elim st req orderNumber year now eo o h
  obtain ⟨hall, hsum⟩ := priceOrder_ok_spec st.catalog req.items items subtotal hp
  refine ⟨?_, ?_, ?_⟩
  · rw [hi]
    exact hall
  · rw [hsub, hi]
    exact hsum
  · rw [htot, hsub, hfee]

/-- Witness for C5: a concrete pickup order placed against the fixture
state. -/
theorem C5_order_totals_witness :
    (placeOrder wState wReq "PCB-20250101-120000-001" 2025 0 EmailOutcome.success).2
        = Except.ok wPlacedOrder ∧
    ((∀ item ∈ wPlacedOrder.items, ∃ m,
        findMenuItem wState.catalog item.menuItemId = some m ∧
        item.unitPrice = m.price ∧
        item.totalPrice = (item.unitPrice
          + friesChargePerUnit wState.catalog m item.friesUpgrade
          + (item.extras.length : ℚ) * extraUnitPrice) * (item.quantity : ℚ)) ∧
      wPlacedOrder.subtotal = (wPlacedOrder.items.map OrderItemRec.totalPrice).sum ∧
      wPlacedOrder.total = wPlacedOrder.subtotal + wPlacedOrder.deliveryFee) :=
  ⟨rfl, C5_order_totals wState wReq "PCB-20250101-120000-001" 2025 0
    EmailOutcome.success wPlacedOrder rfl⟩

/- ============================================================
   C6 — an unknown menu item aborts the whole placement
   ============================================================ -/

/-- C6: when some cart line references a menu item id that resolves to
nothing, order placement leaves the state untouched (no order, no order
line, no invoice, no counter increment) and fails; when the request passes
the preceding field validations, the failure is precisely a not-found error
carrying an unresolvable menu item id. -/
theorem C6_unknown_menu_item_aborts (st : ServerState) (req : PlaceOrderRequest)
    (orderNumber : String) (year : ℕ) (now : ℤ) (eo : EmailOutcome)
    (line : OrderLineRequest) (hmem : line ∈ req.items)
    (hnone : findMenuItem st.catalog line.menuItemId = none) :
    (placeOrder st req orderNumber year now eo).1 = st ∧
    (∃ e, (placeOrder st req orderNumber year now eo).2 = Except.error e) ∧
    (req.customerName ≠ "" → req.customerPhone ≠ "" →
      ¬(req.orderType = "DELIVERY" ∧ req.deliveryAddress = none) →
      ∃ i, (placeOrder st req orderNumber year now eo).2
          = Except.error (PlaceOrderError.menuItemNotFound i) ∧
        findMenuItem st.catalog i = none) := by
  obtain ⟨i, hpo, hi⟩ := priceOrder_err_of_missing st.catalog req.items line hmem hnone
  by_cases h1 : req.customerName = "" ∨ req.customerPhone = "" ∨ req.items.length = 0
  · refine ⟨?_, ⟨.missingFields, ?_⟩, ?_⟩
    · unfold placeOrder
      rw [if_pos h1]
    · unfold placeOrder
      rw [if_pos h1]
    · intro hn hp _
      exfalso
      rcases h1 with hh | hh | hh
      · exact hn hh
      · exact hp hh
      · rw [List.length_eq_zero] at hh
        rw [hh] at hmem
        cases hmem
  · by_cases h2 : req.orderType = "DELIVERY" ∧ req.deliveryAddress = none
    · refine ⟨?_, ⟨.missingAddress, ?_⟩, fun _ _ hna => absurd h2 hna⟩
      · unfold placeOrder
        rw [if_neg h1, if_pos h2]
      · unfold placeOrder
        rw [if_neg h1, if_pos h2]
    · have hred : placeOrder st req orderNumber year now eo
          = (st, Except.error (PlaceOrderError.menuItemNotFound i)) := by
        unfold placeOrder
        rw [if_neg h1, if_neg h2]
        simp [hpo]
      exact ⟨by rw [hred], ⟨_, by rw [hred]⟩, fun _ _ _ => ⟨i, by rw [hred], hi⟩⟩

/-- Witness for C6: a request whose only line references the unknown menu
item id 99. -/
theorem C6_unknown_menu_item_aborts_witness :
    wBadLine ∈ wReqBad.items ∧
    findMenuItem wState.catalog wBadLine.menuItemId = none ∧
    ((placeOrder wState wReqBad "PCB-20250101-120000-003" 2025 0
        EmailOutcome.success).1 = wState ∧
      (∃ e, (placeOrder wState wReqBad "PCB-20250101-120000-003" 2025 0
          EmailOutcome.success).2 = Except.error e) ∧
      (wReqBad.customerName ≠ "" → wReqBad.customerPhone ≠ "" →
        ¬(wReqBad.orderType = "DELIVERY" ∧ wReqBad.deliveryAddress = none) →
        ∃ i, (placeOrder wState wReqBad "PCB-20250101-120000-003" 2025 0
            EmailOutcome.success).2
            = Except.error (PlaceOrderError.menuItemNotFound i) ∧
          findMenuItem wState.catalog i = none)) :=
  ⟨List.mem_singleton.mpr rfl, rfl,
    C6_unknown_menu_item_aborts wState wReqBad "PCB-20250101-120000-003" 2025 0
      EmailOutcome.success wBadLine (List.mem_singleton.mpr rfl) rfl⟩

/- ============================================================
   C10 — the delivery-fee fallback
   ============================================================ -/

/-- C10: on a successfully placed DELIVERY order the fee falls back to 2.50
whenever the restaurant row is absent or its configured fee is 0 (the
fallback applies to every falsy configured value, not only a missing row),
a non-zero configured fee is used as-is, and a PICKUP order always carries
fee 0. -/
theorem C10_delivery_fee_fallback (st : ServerState) (req : PlaceOrderRequest)
    (orderNumber : String) (year : ℕ) (now : ℤ) (eo : EmailOutcome) (o : OrderRec)
    (h : (placeOrder st req orderNumber year now eo).2 = Except.ok o) :
    (req.orderType = "DELIVERY" → st.restaurant = none → o.deliveryFee = 5/2) ∧
    (req.orderType = "DELIVERY" → ∀ r, st.restaurant = some r →
      r.deliveryFee = 0 → o.deliveryFee = 5/2) ∧
    (req.orderType = "DELIVERY" → ∀ r, st.restaurant = some r →
      r.deliveryFee ≠ 0 → o.deliveryFee = r.deliveryFee) ∧
    (req.orderType = "PICKUP" → o.deliveryFee = 0) := by
  obtain ⟨items, subtotal, hp, hi, hsub, hfee, htot⟩ :=
    placeOrder_ok_elim st req orderNumber year now eo o h
  refine ⟨?_, ?_, ?_, ?_⟩
  · intro hd hr
    rw [hfee, resolveDeliveryFee.eq_def, if_pos hd, hr]
  · intro hd r hr hz
    rw [hfee, resolveDeliveryFee.eq_def, if_pos hd, hr]
    simp [hz]
  · intro hd r hr hz
    rw [hfee, resolveDeliveryFee.eq_def, if_pos hd, hr]
    simp [hz]
  · intro hd
    rw [hfee, resolveDeliveryFee.eq_def, if_neg]
    rw [hd]
    decide

/-- Witness for C10: a concrete delivery order placed with no restaurant
settings row gets the 2.50 fallback. -/
theorem C10_delivery_fee_fallback_witness :
    (placeOrder wState wReqDelivery "PCB-20250101-120000-002" 2025 0
        EmailOutcome.success).2 = Except.ok wPlacedDelivery ∧
    wReqDelivery.orderType = "DELIVERY" ∧ wState.restaurant = none ∧
    wPlacedDelivery.deliveryFee = 5/2 :=
  ⟨rfl, rfl, rfl,
    (C10_delivery_fee_fallback wState wReqDelivery "PCB-20250101-120000-002" 2025 0
      EmailOutcome.success wPlacedDelivery rfl).1 rfl rfl⟩

/- ============================================================
   C7 — the accept endpoint
   ============================================================ -/

/-- C7 (counterexample): the claim says every positive estimate is accepted
and that success stamps `confirmedAt = now`.  The handler rejects the
positive estimate 1/2 (its guard is `estimatedMinutes < 1`, not
non-positivity), and a successful accept leaves `confirmedAt` untouched —
it writes `acceptedAt` instead. -/
theorem C7_accept_claim_counterexample :
    (0 : ℚ) < 1/2 ∧
    acceptOrder sampleOrder (some (1/2)) 0 = Except.error LifecycleError.invalidEstimate ∧
    (acceptOrder sampleOrder (some 5) 0).map OrderRec.confirmedAt = Except.ok none ∧
    (acceptOrder sampleOrder (some 5) 0).map OrderRec.acceptedAt
      = Except.ok (some 0) := by
  refine ⟨by norm_num, ?_, ?_, ?_⟩
  · simp only [acceptOrder]
    rw [if_pos (Or.inr (by norm_num))]
  · simp only [acceptOrder]
    rw [if_neg (by push_neg; exact ⟨by norm_num, by norm_num⟩)]
    rfl
  · simp only [acceptOrder]
    rw [if_neg (by push_neg; exact ⟨by norm_num, by norm_num⟩)]
    rfl

/-- C7 (amended): the accept operation fails exactly when the
estimated-minutes input is missing or less than 1 (so positive fractional
estimates below one minute are rejected too); on success it sets status
CONFIRMED, stamps `acceptedAt = now` (the `confirmedAt` field is not
written) and sets `estimatedTime = now + estimate * 60000` ms, leaving
every other field of the order unchanged; on failure the order is not
touched. -/
theorem C7_accept_behavior (order : OrderRec) (m : ℚ) (now : ℤ) :
    acceptOrder order none now = Except.error LifecycleError.invalidEstimate ∧
    (m < 1 → acceptOrder order (some m) now
      = Except.error LifecycleError.invalidEstimate) ∧
    (1 ≤ m → acceptOrder order (some m) now
      = Except.ok { order with
                      status := "CONFIRMED"
                      acceptedAt := some now
                      estimatedTime := some ((now : ℚ) + m * 60000) }) := by
  refine ⟨rfl, ?_, ?_⟩
  · intro hm
    simp only [acceptOrder]
    rw [if_pos (Or.inr hm)]
  · intro hm
    simp only [acceptOrder]
    rw [if_neg (by push_neg; exact ⟨by linarith, by linarith⟩)]

/-- Witness for C7 (amended) at the estimate 5 on a pending fixture order. -/
theorem C7_accept_behavior_witness :
    (1 : ℚ) ≤ 5 ∧
    acceptOrder sampleOrder (some 5) 0
      = Except.ok { sampleOrder with
                      status := "CONFIRMED"
                      acceptedAt := some 0
                      estimatedTime := some (((0 : ℤ) : ℚ) + 5 * 60000) } :=
  ⟨by norm_num, (C7_accept_behavior sampleOrder 5 0).2.2 (by norm_num)⟩

/- ============================================================
   C8 — terminal statuses are not enforced
   ============================================================ -/

/-- C8 (counterexample): the claim says a CANCELLED or DELIVERED order's
status never changes again.  On the fixture DELIVERED order, the direct
status-set endpoint happily moves it to PREPARING, and the cancel endpoint
moves it to CANCELLED. -/
theorem C8_terminal_status_counterexample :
    deliveredOrder.status = "DELIVERED" ∧
    (updateOrderStatus deliveredOrder "PREPARING" none 0).map OrderRec.status
      = Except.ok "PREPARING" ∧
    (cancelOrder deliveredOrder).status = "CANCELLED" := by
  refine ⟨rfl, ?_, rfl⟩
  simp [updateOrderStatus, validStatuses, Except.map]

/-- C8 (amended): none of the lifecycle handlers consult the order's current
status: on any order — in particular one already CANCELLED or DELIVERED —
cancel, ready, out-for-delivery and complete unconditionally overwrite the
status, the direct status-set applies any status from the valid list, and
accept (with a valid estimate) moves it to CONFIRMED.  Terminality is not
enforced anywhere. -/
theorem C8_lifecycle_ignores_current_status (order : OrderRec) (now : ℤ) (s : String)
    (_hterm : order.status = "CANCELLED" ∨ order.status = "DELIVERED")
    (hs : s ∈ validStatuses) :
    (cancelOrder order).status = "CANCELLED" ∧
    (markOrderReady order now).status = "READY" ∧
    (markOrderOutForDelivery order).status = "OUT_FOR_DELIVERY" ∧
    (completeOrder order now).status = "DELIVERED" ∧
    (∃ r, updateOrderStatus order s none now = Except.ok r ∧ r.status = s) ∧
    (∀ m : ℚ, 1 ≤ m → ∃ r, acceptOrder order (some m) now = Except.ok r ∧
      r.status = "CONFIRMED") := by
  refine ⟨rfl, rfl, rfl, rfl, ?_, ?_⟩
  · rw [updateOrderStatus, if_pos hs]
    refine ⟨_, rfl, ?_⟩
    split_ifs <;> rfl
  · intro m hm
    refine ⟨{ order with
                status := "CONFIRMED"
                acceptedAt := some now
                estimatedTime := some ((now : ℚ) + m * 60000) }, ?_, rfl⟩
    simp only [acceptOrder]
    rw [if_neg (by push_neg; exact ⟨by linarith, by linarith⟩)]

/-- Witness for C8 (amended) on the fixture DELIVERED order with the status
PREPARING. -/
theorem C8_lifecycle_ignores_current_status_witness :
    (deliveredOrder.status = "CANCELLED" ∨ deliveredOrder.status = "DELIVERED") ∧
    "PREPARING" ∈ validStatuses ∧
    ((cancelOrder deliveredOrder).status = "CANCELLED" ∧
      (markOrderReady deliveredOrder 0).status = "READY" ∧
      (markOrderOutForDelivery deliveredOrder).status = "OUT_FOR_DELIVERY" ∧
      (completeOrder deliveredOrder 0).status = "DELIVERED" ∧
      (∃ r, updateOrderStatus deliveredOrder "PREPARING" none 0 = Except.ok r ∧
        r.status = "PREPARING") ∧
      (∀ m : ℚ, 1 ≤ m → ∃ r, acceptOrder deliveredOrder (some m) 0 = Except.ok r ∧
        r.status = "CONFIRMED")) :=
  ⟨Or.inr rfl, by decide,
    C8_lifecycle_ignores_current_status deliveredOrder 0 "PREPARING"
      (Or.inr rfl) (by decide)⟩

/- ============================================================
   C9 — the resend-email endpoint only touches email bookkeeping
   ============================================================ -/

/-- One resend invocation on an existing invoice keeps the settings store
and every non-email field of the invoice. -/
theorem resendInvoiceEmail_frame (inv : InvoiceRec) (settings : SettingStore)
    (ov : Option String) (oc : EmailOutcome) (t : ℤ) :
    ∃ inv2, resendInvoiceEmail (some inv) settings ov oc t = (some inv2, settings) ∧
      invoiceCore inv2 = invoiceCore inv := by
  obtain ⟨inum, onum, cname, cemail, cphone, sub, fee, tnet, vat, gross, pm,
    oitems, esent, esentAt, eatt⟩ := inv
  cases ov with
  | some e => cases oc <;> exact ⟨_, rfl, rfl⟩
  | none =>
    cases cemail with
    | none => exact ⟨_, rfl, rfl⟩
    | some e => cases oc <;> exact ⟨_, rfl, rfl⟩

/-- C9: any number of resend-email invocations, with any mix of email
overrides, send outcomes and timestamps, leaves the invoice number, the
customer snapshot, every monetary field, the payment method and the stored
line items unchanged, and leaves the settings store (and with it the
invoice counters) untouched — only `emailSent`, `emailSentAt` and
`emailAttempts` can move. -/
theorem C9_resend_email_frame (invoice : InvoiceRec) (settings : SettingStore)
    (calls : List (Option String × EmailOutcome × ℤ)) :
    (resendCalls (some invoice, settings) calls).2 = settings ∧
    ∃ final, (resendCalls (some invoice, settings) calls).1 = some final ∧
      invoiceCore final = invoiceCore invoice := by
  induction calls generalizing invoice with
  | nil => exact ⟨rfl, invoice, rfl, rfl⟩
  | cons call rest ih =>
    obtain ⟨ov, oc, t⟩ := call
    obtain ⟨inv2, hstep, hcore⟩ := resendInvoiceEmail_frame invoice settings ov oc t
    rw [resendCalls]
    dsimp only
    rw [hstep]
    obtain ⟨hset, final, hfin, hcore2⟩ := ih inv2
    exact ⟨hset, final, hfin, hcore2.trans hcore⟩
